import Mathlib

/-!
Shallow embedding of the rate-computation pipeline of the shipping-rates
repository, together with theorems checking the natural-language
specification's claims against it.

Sources embedded:
- `app/lib/volumePricingEngine.server.js` (volume discount engine),
- `app/routes/api.rates.jsx` (rate request handler: zone gate, tier
  selector, price computation, response assembly).

Conventions of the embedding:
- A JavaScript number field of an untrusted payload is modelled as
  `Option Int`: `some n` is a finite number (carrier payloads carry integer
  minor units and integer quantities, on which `Math.trunc` is the
  identity), `none` is a value whose `Number(...)` coercion is `NaN` (or an
  absent field).  All arithmetic the code performs on these values is exact
  integer arithmetic at the magnitudes the pipeline handles.
- A JSON field that may be missing or of the wrong shape is an `Option`.
- `Math.round(n / 10000)` on an exact quotient is embedded as
  `Int.fdiv (2 * n + 10000) 20000`, i.e. the floor of `n/10000 + 1/2`,
  which is the rounding JavaScript applies (half toward positive
  infinity).
-/

/-- JavaScript `String.prototype.trim()`: strip leading and trailing
whitespace (implemented over the character list so it evaluates in the
kernel). -/
def jsTrim (s : String) : String :=
  String.mk
    (((s.data.dropWhile (fun c => c.isWhitespace)).reverse.dropWhile
      (fun c => c.isWhitespace)).reverse)

/-- JavaScript `String.prototype.toUpperCase()` on the code points the
pipeline handles (country/province/id codes). -/
def jsToUpper (s : String) : String :=
  String.mk (s.data.map Char.toUpper)

/-- Source: `toInt(n, fallback)` from volumePricingEngine.server.js: coerce to a
finite integer, otherwise return the fallback. -/
def toInt (n : Option Int) (fallback : Int) : Int :=
  match n with
  | some x => x
  | none => fallback

/-- Source: `clampInt(n, min, max)` from volumePricingEngine.server.js:
`Math.min(Math.max(toInt(n, min), min), max)`. -/
def clampInt (n : Option Int) (lo hi : Int) : Int :=
  min (max (toInt n lo) lo) hi

/-- JavaScript `a || b` on string-like values: `none` and the empty string
are falsy. -/
def jsOrS (a b : Option String) : Option String :=
  match a with
  | some s => if s == "" then b else some s
  | none => b

/-- Source: `normalizeIdLike(v)` from volumePricingEngine.server.js: trim, turn a
`gid://shopify/Product/123`-style URN into `"123"` by matching the trailing
`/(\d+)\s*$` group, and otherwise return the trimmed string (the source's
`/^\d+$/` test returns `s` in both branches, so it is a no-op). -/
def normalizeIdLike (v : Option String) : String :=
  match v with
  | none => ""
  | some raw =>
    let s := jsTrim raw
    if s == "" then ("")
    else
      let rev := s.data.reverse.dropWhile (fun c => c.isWhitespace)
      let digits := rev.takeWhile (fun c => c.isDigit)
      let rest := rev.dropWhile (fun c => c.isDigit)
      if !digits.isEmpty && rest.head? == some (Char.ofNat 47) then
        String.mk digits.reverse
      else s

/-- One entry of the tier table configuration blob
(`{ minEligibleQty, discountCentsEach }`), fields untrusted. -/
structure ConfigTier where
  minEligibleQty : Option Int
  discountCentsEach : Option Int
deriving Repr, DecidableEq

/-- The normalized volume-pricing config blob (`{version, tiers}`). -/
structure VolumeConfig where
  version : Option Int
  tiers : Option (List ConfigTier)
deriving Repr, DecidableEq

/-- The eligibility snapshot blob
(`{version, eligibleProductIds, excludedProductIds}`). -/
structure EligibilitySnapshot where
  version : Option Int
  eligibleProductIds : Option (List String)
  excludedProductIds : Option (List String)
deriving Repr, DecidableEq

/-- A carrier-payload line item as the volume engine reads it: `price`,
`quantity`, and the `product_id || productId || product` key chain. -/
structure VolumeItem where
  price : Option Int
  quantity : Option Int
  product_id : Option String
  productId : Option String
  product : Option String
deriving Repr, DecidableEq

/-- The tier picked by `pickBestTier`, with both fields already coerced to
integers. -/
structure AppliedTier where
  minEligibleQty : Int
  discountCentsEach : Int
deriving Repr, DecidableEq

/-- One element of the engine's `normalized` array. -/
structure NormItem where
  unitCents : Int
  qty : Int
  productId : String
  isEligible : Bool
  isExcluded : Bool
deriving Repr, DecidableEq

/-- The result record of `computeVolumeAdjustedMerchCents`. -/
structure VolumeResult where
  ok : Bool
  volumeAdjustedMerchCents : Int
  eligibleQty : Int
  appliedTier : Option AppliedTier
  discountCentsTotal : Int
  warnings : List String
deriving Repr, DecidableEq

/-- Source: `config?.version === 1 ? config?.tiers : null` combined with the
`Array.isArray` usage downstream: the tier list, if the config is a
version-1 blob carrying one. -/
def tiersOf (config : Option VolumeConfig) : Option (List ConfigTier) :=
  match config with
  | some c => if c.version = some 1 then c.tiers else none
  | none => none

/-- The engine's `eligibleSet`: normalized ids from a version-1 snapshot,
else empty.  (A JavaScript `Set` built from a list is empty exactly when
the list is; membership is list membership.) -/
def eligSetOf (snap : Option EligibilitySnapshot) : List String :=
  match snap with
  | some s =>
    if s.version = some 1 then
      (s.eligibleProductIds.getD []).map (fun x => normalizeIdLike (some x))
    else []
  | none => []

/-- The engine's `excludedSet`, built like `eligSetOf`. -/
def exclSetOf (snap : Option EligibilitySnapshot) : List String :=
  match snap with
  | some s =>
    if s.version = some 1 then
      (s.excludedProductIds.getD []).map (fun x => normalizeIdLike (some x))
    else []
  | none => []

/-- Source: `normalizeIdLike(item?.product_id || item?.productId || item?.product)`. -/
def itemProductId (it : VolumeItem) : String :=
  normalizeIdLike (jsOrS (jsOrS it.product_id it.productId) it.product)

/-- One step of the engine's `normalized` map: coerce price and quantity,
normalize the product id, and classify eligibility (exclusion wins). -/
def normalizeItem (eligSet exclSet : List String) (item : VolumeItem) : NormItem :=
  let unitCents := toInt item.price 0
  let qty := clampInt item.quantity 0 1000000
  let productId := itemProductId item
  let isExcluded := !(productId == "") && exclSet.contains productId
  let isEligible := !(productId == "") && eligSet.contains productId && !isExcluded
  ⟨unitCents, qty, productId, isEligible, isExcluded⟩

/-- The body of `pickBestTier`'s loop: skip tiers with non-positive
threshold or discount, otherwise keep the running best, replacing it only
on a strictly higher threshold. -/
def pickStep (q : Int) (best : Option AppliedTier) (t : ConfigTier) : Option AppliedTier :=
  let m := toInt t.minEligibleQty 0
  let d := toInt t.discountCentsEach 0
  if m ≤ 0 then best
  else if d ≤ 0 then best
  else if m ≤ q then
    match best with
    | none => some ⟨m, d⟩
    | some b => if b.minEligibleQty < m then some ⟨m, d⟩ else best
  else best

/-- Source: `pickBestTier(tiers, eligibleQty)` from volumePricingEngine.server.js:
highest `minEligibleQty ≤ eligibleQty` among valid tiers wins, first
occurrence kept on ties. -/
def pickBestTier (tiers : List ConfigTier) (eligibleQty : Int) : Option AppliedTier :=
  if tiers.isEmpty then none
  else tiers.foldl (pickStep eligibleQty) none

/-- The `items_capped` warning: pushed when `items.length > hardItemCap`. -/
def cappedWarnings (items : List VolumeItem) (hardItemCap : Nat) : List String :=
  if hardItemCap < items.length then ["items_capped"] else []

/-- The engine's `normalized` array: the capped item list, classified
against the snapshot's two sets. -/
def normItems (items : List VolumeItem) (snap : Option EligibilitySnapshot)
    (hardItemCap : Nat) : List NormItem :=
  (items.take hardItemCap).map (normalizeItem (eligSetOf snap) (exclSetOf snap))

/-- The engine's running `merchCents`: `unitCents * qty` summed over the
normalized items. -/
def merchSum (ns : List NormItem) : Int :=
  (ns.map (fun it => it.unitCents * it.qty)).sum

/-- The engine's running `eligibleQty`: quantities of eligible items. -/
def eligQtySum (ns : List NormItem) : Int :=
  (ns.map (fun it => if it.isEligible then it.qty else 0)).sum

/-- The engine's `adjustedMerchCents` accumulation: eligible items at
`max 0 (unit - discountEach)` per unit, others at full price. -/
def adjustedSum (ns : List NormItem) (discountEach : Int) : Int :=
  (ns.map (fun it =>
    if it.isEligible then max 0 (it.unitCents - discountEach) * it.qty
    else it.unitCents * it.qty)).sum

/-- The engine's `discountCentsTotal` accumulation:
`(baseUnit - discountedUnit) * qty` over eligible items. -/
def discountSum (ns : List NormItem) (discountEach : Int) : Int :=
  (ns.map (fun it =>
    if it.isEligible then (it.unitCents - max 0 (it.unitCents - discountEach)) * it.qty
    else 0)).sum

/-- The undiscounted merchandise total the engine computes when the tier
table is absent or empty: `toInt(price) * clampInt(quantity, 0, 1e6)`
summed over the first `hardItemCap` items. -/
def rawMerchTotal (items : List VolumeItem) (hardItemCap : Nat) : Int :=
  ((items.take hardItemCap).map
    (fun it => toInt it.price 0 * clampInt it.quantity 0 1000000)).sum

/-- Source: `computeVolumeAdjustedMerchCents` from volumePricingEngine.server.js.
Branches, in source order: empty cart; absent/empty tier table; empty
eligibility set; no qualifying tier; tier applied. -/
def computeVolumeAdjustedMerchCents (items : List VolumeItem)
    (config : Option VolumeConfig) (eligibilitySnapshot : Option EligibilitySnapshot)
    (hardItemCap : Nat) : VolumeResult :=
  if items.isEmpty then ⟨true, 0, 0, none, 0, []⟩
  else
    match tiersOf config with
    | none => ⟨true, rawMerchTotal items hardItemCap, 0, none, 0,
        cappedWarnings items hardItemCap⟩
    | some ts =>
      if ts.isEmpty then
        ⟨true, rawMerchTotal items hardItemCap, 0, none, 0,
          cappedWarnings items hardItemCap⟩
      else
        if (eligSetOf eligibilitySnapshot).isEmpty then
          ⟨true, merchSum (normItems items eligibilitySnapshot hardItemCap), 0, none, 0,
            cappedWarnings items hardItemCap ++ ["eligibility_missing_or_empty"]⟩
        else
          match pickBestTier ts (eligQtySum (normItems items eligibilitySnapshot hardItemCap)) with
          | none => ⟨true, merchSum (normItems items eligibilitySnapshot hardItemCap),
              eligQtySum (normItems items eligibilitySnapshot hardItemCap), none, 0,
              cappedWarnings items hardItemCap⟩
          | some b => ⟨true,
              adjustedSum (normItems items eligibilitySnapshot hardItemCap) b.discountCentsEach,
              eligQtySum (normItems items eligibilitySnapshot hardItemCap),
              some b,
              discountSum (normItems items eligibilitySnapshot hardItemCap) b.discountCentsEach,
              cappedWarnings items hardItemCap⟩

/-! Zone gate and tier selector, from `app/routes/api.rates.jsx`. -/

/-- Source: `normalizeProvinceCode(p)`: `String(p || "").trim().toUpperCase()`. -/
def normalizeProvinceCode (p : Option String) : String :=
  jsToUpper (jsTrim ((jsOrS p (some (""))).getD ("")))

/-- Source: `normalizeCountryCode(c)`: `String(c || "").trim().toUpperCase()`. -/
def normalizeCountryCode (c : Option String) : String :=
  jsToUpper (jsTrim ((jsOrS c (some (""))).getD ("")))

/-- A country entry of the managed-zone config: `{selected: true}` or
`{provinces: [...]}` (either field may be missing or malformed). -/
structure CountryEntry where
  selected : Option Bool
  provinces : Option (List String)
deriving Repr, DecidableEq

/-- A region group of the managed-zone config: its `countries` object,
modelled as an association list (JavaScript object keys are unique). -/
structure ZoneGroup where
  countries : Option (List (String × CountryEntry))
deriving Repr, DecidableEq

/-- The `groups` object of the managed-zone config. -/
structure ZoneGroups where
  northAmerica : Option ZoneGroup
  international : Option ZoneGroup
deriving Repr, DecidableEq

/-- The parsed `managedZoneConfigJson` blob. -/
structure ManagedZoneConfig where
  groups : Option ZoneGroups
deriving Repr, DecidableEq

/-- The country lookup inside `isDestinationManaged`: pick the
`northAmerica` group for US/CA/MX and `international` otherwise, then look
the (already normalized) country code up in that group's `countries`. -/
def countryEntryFor (cfg : Option ManagedZoneConfig) (cc : String) : Option CountryEntry :=
  let groups := cfg.bind (fun c => c.groups)
  let isNA := cc == "US" || cc == "CA" || cc == "MX"
  let group := if isNA then groups.bind (fun g => g.northAmerica)
    else groups.bind (fun g => g.international)
  let countries := (group.bind (fun g => g.countries)).getD []
  (countries.find? (fun p => p.1 == cc)).map (fun p => p.2)

/-- Source: `isDestinationManaged(managedZoneConfig, destCountry, destProvince)`
from api.rates.jsx: absent country ⇒ false; `selected === true` ⇒ true;
otherwise a non-empty province list gates on the normalized destination
province, failing closed when no province was sent. -/
def isDestinationManaged (cfg : Option ManagedZoneConfig)
    (destCountry destProvince : Option String) : Bool :=
  let cc := normalizeCountryCode destCountry
  let pc := normalizeProvinceCode destProvince
  match countryEntryFor cfg cc with
  | none => false
  | some entry =>
    if entry.selected == some true then true
    else
      let provs := (entry.provinces.getD []).map (fun p => normalizeProvinceCode (some p))
      if provs.isEmpty then false
      else if pc == "" then false
      else provs.contains pc

/-- Source: `isBetween(value, minCents, maxCents)` from api.rates.jsx: inclusive
interval membership with a null maximum meaning unbounded above. -/
def isBetween (value minCents : Int) (maxCents : Option Int) : Bool :=
  if value < minCents then false
  else
    match maxCents with
    | none => true
    | some m => value ≤ m

/-- A persisted shipping tier as the rates route reads it (already
filtered to `isActive` and sorted by the Prisma query). -/
structure DbTier where
  id : Nat
  minCents : Int
  maxCents : Option Int
  priceType : String
  percentBps : Option Int
  flatPriceCents : Option Int
deriving Repr, DecidableEq

/-- A persisted shipping chart with its active tiers. -/
structure ShippingChart where
  id : Nat
  name : String
  handlingFeeCents : Option Int
  tiers : List DbTier
deriving Repr, DecidableEq

/-- JavaScript `Math.round(n / 10000)` on the exact quotient `n / 10000`:
the floor of `n/10000 + 1/2`, computed as `⌊(2n + 10000) / 20000⌋`. -/
def jsRound10000 (n : Int) : Int :=
  Int.fdiv (2 * n + 10000) 20000

/-- Source: `computeTierPriceCents(tier, basisCents, handlingFeeCents)` from
api.rates.jsx: percent-of-basis tiers round `basis * percentBps / 10000`,
flat tiers use `flatPriceCents ?? 0`; the chart handling fee is added
after the tier math. -/
def computeTierPriceCents (tier : DbTier) (basisCents : Int)
    (handlingFeeCents : Option Int) : Int :=
  let tierRateCents :=
    if tier.priceType == "PERCENT_OF_BASIS" then
      jsRound10000 (basisCents * tier.percentBps.getD 0)
    else tier.flatPriceCents.getD 0
  tierRateCents + handlingFeeCents.getD 0

/-- Modelled from the spec's pricing sentence, for comparison with the
source: "if the tier is percentage-based,
`price = round(basisAmount × percentBasisPoints / 10000)`; if flat,
`price = flatAmount`" (fee not yet added). -/
def specTierRateCents (tier : DbTier) (basisCents : Int) : Int :=
  if tier.priceType == "PERCENT_OF_BASIS" then
    jsRound10000 (basisCents * tier.percentBps.getD 0)
  else tier.flatPriceCents.getD 0

/-! The live rate request handler (`action` of `app/routes/api.rates.jsx`),
from the point where the HMAC check, the shop parameter check and JSON
parsing have succeeded. -/

/-- A line item of the parsed carrier request body. -/
structure RateItem where
  price : Option Int
  quantity : Option Int
  requires_shipping : Bool
deriving Repr, DecidableEq

/-- The request body's `rate.destination` object. -/
structure Destination where
  country_code : Option String
  country : Option String
  province_code : Option String
  province : Option String
deriving Repr, DecidableEq

/-- The request body's `rate.order_totals` object. -/
structure OrderTotals where
  total_price : Option Int
deriving Repr, DecidableEq

/-- The request body's `rate` object, as far as the handler reads it. -/
structure RatePayload where
  items : List RateItem
  destination : Option Destination
  order_totals : Option OrderTotals
  currency : Option String
deriving Repr, DecidableEq

/-- One priced offer of the handler's response. -/
structure RateOffer where
  service_name : String
  service_code : String
  total_price : String
  currency : String
deriving Repr, DecidableEq

/-- Source: `(payload?.rate?.items ?? []).filter((i) => i.requires_shipping)`. -/
def shippingItems (payload : RatePayload) : List RateItem :=
  payload.items.filter (fun i => i.requires_shipping)

/-- The handler's merchandise-total loop: `Number(item?.price)` must be
finite (else the request fails closed, modelled as `none`);
`Number(item?.quantity || 0)` maps an absent quantity to `0`. -/
def merchCentsOf (items : List RateItem) : Option Int :=
  items.foldl
    (fun acc item =>
      match acc with
      | none => none
      | some total =>
        match item.price with
        | none => none
        | some unitCents => some (total + unitCents * item.quantity.getD 0))
    (some 0)

/-- The handler's basis selection (api.rates.jsx lines 185-186): use
`payload?.rate?.order_totals?.total_price` when it is a finite number,
otherwise fall back to the summed `merchCents`. -/
def ratesBasisCents (payload : RatePayload) (merchCents : Int) : Int :=
  match payload.order_totals.bind (fun t => t.total_price) with
  | some v => v
  | none => merchCents

/-- The basis the handler hands to the tier selection, for a payload that
passes the item filter and the finiteness check. -/
def ratesBasisOf (payload : RatePayload) : Option Int :=
  match merchCentsOf (shippingItems payload) with
  | none => none
  | some m => some (ratesBasisCents payload m)

/-- Source: `dest.country_code || dest.country || ""` over
`payload?.rate?.destination || {}`. -/
def destCountryOf (payload : RatePayload) : String :=
  ((jsOrS (payload.destination.bind (fun d => d.country_code))
    (payload.destination.bind (fun d => d.country))).getD (""))

/-- Source: `dest.province_code || dest.province || ""`. -/
def destProvinceOf (payload : RatePayload) : String :=
  ((jsOrS (payload.destination.bind (fun d => d.province_code))
    (payload.destination.bind (fun d => d.province))).getD (""))

/-- The hardcoded gate switch of the live route: `const
ENABLE_MANAGED_ZONE_GATE = false` ("TEMP: disable gate while Settings are
paused"). -/
def ENABLE_MANAGED_ZONE_GATE : Bool := false

/-- The inner loop of the live route's chart scan: the first active tier
of the chart whose interval contains the basis yields one pushed rate
(`service_code` is `` `${chart.id}:${tier.id}` ``, the price is computed
with the chart's handling fee, the final mapping renders the price as a
string and hardcodes `"USD"`). -/
def chartFirstMatch (basisCents : Int) (chart : ShippingChart) : Option RateOffer :=
  (chart.tiers.find? (fun tier => isBetween basisCents tier.minCents tier.maxCents)).map
    (fun tier =>
      { service_name := chart.name
        service_code := toString chart.id ++ ":" ++ toString tier.id
        total_price := toString (computeTierPriceCents tier basisCents chart.handlingFeeCents)
        currency := "USD" })

/-- The live `action` of api.rates.jsx after HMAC, shop-parameter and JSON
parse success: filter to shippable items (empty ⇒ `{rates: []}`), total
the merchandise (non-finite ⇒ `{rates: []}`), skip the zone gate (the
switch is off), pick the basis, collect one rate per chart whose tier list
contains a match, and fail closed when none matched.  The response is the
`rates` array; `[]` models `json({ rates: [] })`. -/
def ratesAction (payload : RatePayload) (managedZoneConfig : Option ManagedZoneConfig)
    (charts : List ShippingChart) : List RateOffer :=
  let items := shippingItems payload
  if items.isEmpty then []
  else
    match merchCentsOf items with
    | none => []
    | some merchCents =>
      if ENABLE_MANAGED_ZONE_GATE &&
          !(isDestinationManaged managedZoneConfig (some (destCountryOf payload))
            (some (destProvinceOf payload))) then []
      else
        let basisCents := ratesBasisCents payload merchCents
        let rates := charts.filterMap (chartFirstMatch basisCents)
        if rates.isEmpty then [] else rates


/-! Analysis vocabulary for the tier-selection claims.  These definitions
restate, in list form, the sets the loop of `pickBestTier` ranges over, so
that the claims about "valid tiers whose threshold qualifies" can be
stated and compared with the loop's result. -/

/-- The integer coercions `pickBestTier` applies to a raw tier entry. -/
def coerceTier (t : ConfigTier) : AppliedTier :=
  ⟨toInt t.minEligibleQty 0, toInt t.discountCentsEach 0⟩

/-- A coerced tier is valid (positive threshold and discount) and its
threshold is within the eligible quantity. -/
def tierQualifies (q : Int) (b : AppliedTier) : Bool :=
  decide (0 < b.minEligibleQty) && decide (0 < b.discountCentsEach)
    && decide (b.minEligibleQty ≤ q)

/-- The coerced valid tiers whose threshold is within the eligible
quantity, in table order. -/
def qualTiers (tiers : List ConfigTier) (q : Int) : List AppliedTier :=
  (tiers.map coerceTier).filter (tierQualifies q)

/-- The accumulator discipline of `pickBestTier`'s loop, restricted to the
qualifying tiers: keep the running best, replacing it only on a strictly
higher threshold. -/
def bestOf (acc : Option AppliedTier) (l : List AppliedTier) : Option AppliedTier :=
  match l with
  | [] => acc
  | v :: vs =>
    match acc with
    | none => bestOf (some v) vs
    | some b => bestOf (some (if b.minEligibleQty < v.minEligibleQty then v else b)) vs

/-! Concrete fixtures used by the theorems below. -/

/-- The spec's volume scenario cart, as the engine reads it: unit prices
1000 and 2000 cents, quantities 3 and 1, product ids 111 and 222. -/
def scenarioVolumeItems : List VolumeItem :=
  [⟨some 1000, some 3, some ("111"), none, none⟩,
   ⟨some 2000, some 1, some ("222"), none, none⟩]

/-- The scenario's tier table: one tier `{minEligibleQty:3, discountCentsEach:200}`. -/
def scenarioConfig : VolumeConfig :=
  ⟨some 1, some [⟨some 3, some 200⟩]⟩

/-- The scenario's eligibility snapshot: product 111 eligible, nothing
excluded. -/
def scenarioSnapshot : EligibilitySnapshot :=
  ⟨some 1, some [("111")], some []⟩

/-- The same cart as the rate handler reads it. -/
def scenarioRateItems : List RateItem :=
  [⟨some 1000, some 3, true⟩, ⟨some 2000, some 1, true⟩]

/-- The scenario cart as a request body without `order_totals`. -/
def scenarioPayload : RatePayload :=
  ⟨scenarioRateItems, none, none, none⟩

/-- The scenario cart as a request body whose `order_totals.total_price`
is 9999. -/
def scenarioPayloadWithTotals : RatePayload :=
  ⟨scenarioRateItems, none, some ⟨some 9999⟩, none⟩

/-- An active chart with one flat 500-cent tier covering every basis. -/
def chartA : ShippingChart :=
  ⟨1, ("Chart A"), none, [⟨11, 0, none, ("FLAT"), none, some 500⟩]⟩

/-- A second active chart with one flat 700-cent tier covering every basis. -/
def chartB : ShippingChart :=
  ⟨2, ("Chart B"), none, [⟨22, 0, none, ("FLAT"), none, some 700⟩]⟩

/-- A managed-zone config whose North America group gates US on the
provinces CA and NY. -/
def usProvinceZoneConfig : ManagedZoneConfig :=
  ⟨some ⟨some ⟨some [(("US"), ⟨none, some [("CA"), ("NY")]⟩)]⟩, none⟩⟩

/-- A one-item shippable payload with destination US/TX and no
`order_totals`. -/
def txPayload : RatePayload :=
  ⟨[⟨some 1000, some 1, true⟩], some ⟨some ("US"), none, some ("TX"), none⟩,
    none, none⟩

/-- Claim C1 (code bug): for the scenario cart, the live handler's basis is
the raw 5000-cent merchandise total (or the payload's
`order_totals.total_price` when present), not the 4400-cent
volume-adjusted total the Volume Discount Engine computes for the same
cart: the live route never invokes `computeVolumeAdjustedMerchCents`,
contradicting its own "basis after Volume Pricing" comment and the
engine-invoking route variant. -/
theorem claim1_live_basis_not_volume_adjusted :
    ratesBasisOf scenarioPayload = some 5000
    ∧ ratesBasisOf scenarioPayloadWithTotals = some 9999
    ∧ (computeVolumeAdjustedMerchCents scenarioVolumeItems (some scenarioConfig)
        (some scenarioSnapshot) 500).volumeAdjustedMerchCents = 4400 := by
  refine ⟨by decide, by decide, by decide⟩

/-- Claim C4 (code bug): with two active charts that each contain a
matching tier, the live handler returns two priced offers (one per
matching chart), not a single first-match-wins offer, contradicting its
own "First match wins" comment. -/
theorem claim4_one_offer_per_matching_chart :
    ratesAction scenarioPayload none [chartA, chartB]
      = [⟨("Chart A"), ("1:11"), ("500"), ("USD")⟩,
         ⟨("Chart B"), ("2:22"), ("700"), ("USD")⟩]
    ∧ (ratesAction scenarioPayload none [chartA, chartB]).length = 2 := by
  refine ⟨by decide, by decide⟩

/-- Claim C6 (code bug): destination US/TX is not managed under a config
gating US on CA and NY, yet the live handler still returns a priced offer
because its zone gate switch is hardcoded off ("TEMP: disable gate"),
contradicting the route's own "Outside managed zones => []" locked
behavior. -/
theorem claim6_unmanaged_destination_still_priced :
    isDestinationManaged (some usProvinceZoneConfig) (some ("US")) (some ("TX")) = false
    ∧ ratesAction txPayload (some usProvinceZoneConfig) [chartA]
        = [⟨("Chart A"), ("1:11"), ("500"), ("USD")⟩] := by
  refine ⟨by decide, by decide⟩

/-- Claim C7: a tier interval matches the basis exactly when
`minCents ≤ basis` and the maximum is null or `basis ≤ maxCents`; a basis
equal to `maxCents` matches, and a basis one unit above does not. -/
theorem claim7_isBetween_inclusive_bounds :
    ∀ (value minCents : Int) (maxCents : Option Int),
      (isBetween value minCents maxCents = true ↔
        (minCents ≤ value ∧
          (maxCents = none ∨ ∃ m, maxCents = some m ∧ value ≤ m)))
      ∧ (∀ m : Int, minCents ≤ m →
          isBetween m minCents (some m) = true
          ∧ isBetween (m + 1) minCents (some m) = false) := by
  intro value minCents maxCents
  constructor
  · unfold isBetween
    cases maxCents with
    | none =>
      by_cases h : value < minCents
      · simp [h]
      · simp [h]
        omega
    | some m =>
      by_cases h : value < minCents
      · simp [h]
      · simp [h]
        omega
  · intro m hm
    unfold isBetween
    constructor
    · simp [not_lt.mpr hm, if_neg]
    · by_cases h : m + 1 < minCents
      · simp [h]
      · simp [h]

/-- Witness for the hypothesis of claim C7's boundary part at
`minCents = 300`, `m = 900`. -/
theorem claim7_witness :
    (300 : Int) ≤ 900
    ∧ isBetween 900 300 (some 900) = true
    ∧ isBetween (900 + 1) 300 (some 900) = false := by
  refine ⟨by decide, ?_, ?_⟩
  · exact ((claim7_isBetween_inclusive_bounds 900 300 (some 900)).2 900 (by decide)).1
  · exact ((claim7_isBetween_inclusive_bounds 901 300 (some 900)).2 900 (by decide)).2

/-- Claim C8: the quoted price is the rounded percentage of the basis for
percent tiers and the flat amount otherwise, and the owning chart's
handling fee is added after the tier price, unconditionally (the fee
contribution is the same additive term whatever the tier computes). -/
theorem claim8_tier_price_and_handling_fee :
    ∀ (tier : DbTier) (basisCents : Int) (handlingFeeCents : Option Int),
      computeTierPriceCents tier basisCents handlingFeeCents
        = specTierRateCents tier basisCents + handlingFeeCents.getD 0
      ∧ computeTierPriceCents tier basisCents handlingFeeCents
        = computeTierPriceCents tier basisCents (some 0) + handlingFeeCents.getD 0 := by
  intro tier basisCents handlingFeeCents
  unfold computeTierPriceCents specTierRateCents
  cases h : tier.priceType == ("PERCENT_OF_BASIS") <;> simp [h]

/-! Loop invariants for `pickBestTier`. -/

/-- One loop step of `pickBestTier`, rephrased through the qualification
predicate: a non-qualifying tier is skipped, a qualifying one is merged
into the accumulator, replacing it only on a strictly higher threshold. -/
theorem pickStep_eq (q : Int) (acc : Option AppliedTier) (t : ConfigTier) :
    pickStep q acc t =
      if tierQualifies q (coerceTier t) then
        match acc with
        | none => some (coerceTier t)
        | some b =>
          some (if b.minEligibleQty < (coerceTier t).minEligibleQty then coerceTier t else b)
      else acc := by
  unfold pickStep tierQualifies coerceTier
  by_cases h1 : toInt t.minEligibleQty 0 ≤ 0
  · have hh : ¬ (0 < toInt t.minEligibleQty 0) := not_lt.mpr h1
    simp [h1, hh]
  · by_cases h2 : toInt t.discountCentsEach 0 ≤ 0
    · have hh : ¬ (0 < toInt t.discountCentsEach 0) := not_lt.mpr h2
      simp [h1, h2, hh]
    · by_cases h3 : toInt t.minEligibleQty 0 ≤ q
      · have hm : 0 < toInt t.minEligibleQty 0 := not_le.mp h1
        have hd : 0 < toInt t.discountCentsEach 0 := not_le.mp h2
        simp only [if_neg h1, if_neg h2, if_pos h3, if_pos
          (show (decide (0 < toInt t.minEligibleQty 0) &&
            decide (0 < toInt t.discountCentsEach 0) &&
            decide (toInt t.minEligibleQty 0 ≤ q)) = true by simp [hm, hd, h3])]
        cases acc with
        | none => rfl
        | some b =>
          by_cases hb : b.minEligibleQty < toInt t.minEligibleQty 0 <;> simp [hb]
      · have hh : ¬ (toInt t.minEligibleQty 0 ≤ q) := h3
        simp [h1, h2, hh]

/-- The fold of `pickBestTier` equals the accumulator discipline `bestOf`
run over exactly the qualifying tiers. -/
theorem foldl_pickStep_eq_bestOf (q : Int) :
    ∀ (l : List ConfigTier) (acc : Option AppliedTier),
      l.foldl (pickStep q) acc = bestOf acc (qualTiers l q) := by
  intro l
  induction l with
  | nil => intro acc; rfl
  | cons t ts ih =>
    intro acc
    show List.foldl (pickStep q) (pickStep q acc t) ts = _
    rw [ih]
    have hfil : qualTiers (t :: ts) q
        = if tierQualifies q (coerceTier t) then coerceTier t :: qualTiers ts q
          else qualTiers ts q := by
      unfold qualTiers
      simp [List.filter_cons]
    rw [hfil, pickStep_eq]
    by_cases h : tierQualifies q (coerceTier t) = true
    · rw [if_pos h, if_pos h]
      cases acc with
      | none => rfl
      | some b => rfl
    · rw [if_neg h, if_neg h]

/-- The accumulator discipline never loses a running best. -/
theorem bestOf_some_isSome :
    ∀ (l : List AppliedTier) (b0 : AppliedTier), ∃ b, bestOf (some b0) l = some b := by
  intro l
  induction l with
  | nil => intro b0; exact ⟨b0, rfl⟩
  | cons v vs ih =>
    intro b0
    exact ih (if b0.minEligibleQty < v.minEligibleQty then v else b0)

/-- Invariant of the accumulator discipline: the final best dominates
every scanned threshold and the accumulator, and is either the incoming
accumulator or the first scanned tier attaining the final threshold. -/
theorem bestOf_acc_spec :
    ∀ (l : List AppliedTier) (b0 b : AppliedTier), bestOf (some b0) l = some b →
      (∀ t ∈ l, t.minEligibleQty ≤ b.minEligibleQty)
      ∧ b0.minEligibleQty ≤ b.minEligibleQty
      ∧ (b = b0 ∨ (b0.minEligibleQty < b.minEligibleQty
          ∧ l.find? (fun t => t.minEligibleQty == b.minEligibleQty) = some b)) := by
  intro l
  induction l with
  | nil =>
    intro b0 b h
    have hb : b0 = b := by simpa [bestOf] using h
    subst hb
    simp
  | cons v vs ih =>
    intro b0 b h
    have h2 : bestOf (some (if b0.minEligibleQty < v.minEligibleQty then v else b0)) vs
        = some b := h
    by_cases hv : b0.minEligibleQty < v.minEligibleQty
    · rw [if_pos hv] at h2
      obtain ⟨hall, hacc, hthird⟩ := ih v b h2
      refine ⟨?_, le_of_lt (lt_of_lt_of_le hv hacc), Or.inr ⟨lt_of_lt_of_le hv hacc, ?_⟩⟩
      · intro t ht
        rcases List.mem_cons.mp ht with rfl | ht2
        · exact hacc
        · exact hall t ht2
      · rcases hthird with rfl | ⟨hlt, hfind⟩
        · rw [List.find?_cons_of_pos]
          simp
        · rw [List.find?_cons_of_neg]
          · exact hfind
          · simp only [beq_iff_eq]
            omega
    · rw [if_neg hv] at h2
      obtain ⟨hall, hacc, hthird⟩ := ih b0 b h2
      have hvle : v.minEligibleQty ≤ b0.minEligibleQty := not_lt.mp hv
      refine ⟨?_, hacc, ?_⟩
      · intro t ht
        rcases List.mem_cons.mp ht with rfl | ht2
        · exact le_trans hvle hacc
        · exact hall t ht2
      · rcases hthird with rfl | ⟨hlt, hfind⟩
        · exact Or.inl rfl
        · refine Or.inr ⟨hlt, ?_⟩
          rw [List.find?_cons_of_neg]
          · exact hfind
          · simp only [beq_iff_eq]
            omega

/-- Starting from an empty accumulator, the accumulator discipline returns
a scanned tier that dominates every threshold, and is the first tier
attaining the final threshold. -/
theorem bestOf_none_spec (l : List AppliedTier) (b : AppliedTier) :
    bestOf none l = some b →
      b ∈ l ∧ (∀ t ∈ l, t.minEligibleQty ≤ b.minEligibleQty)
      ∧ l.find? (fun t => t.minEligibleQty == b.minEligibleQty) = some b := by
  cases l with
  | nil => intro h; simp [bestOf] at h
  | cons v vs =>
    intro h
    have h2 : bestOf (some v) vs = some b := h
    obtain ⟨hall, hacc, hthird⟩ := bestOf_acc_spec vs v b h2
    refine ⟨?_, ?_, ?_⟩
    · rcases hthird with rfl | ⟨hlt, hfind⟩
      · exact List.mem_cons_self _ _
      · exact List.mem_cons_of_mem _ (List.mem_of_find?_eq_some hfind)
    · intro t ht
      rcases List.mem_cons.mp ht with rfl | ht2
      · exact hacc
      · exact hall t ht2
    · rcases hthird with rfl | ⟨hlt, hfind⟩
      · rw [List.find?_cons_of_pos]
        simp
      · rw [List.find?_cons_of_neg]
        · exact hfind
        · simp only [beq_iff_eq]
          omega

/-- The accumulator discipline returns nothing only on the empty list. -/
theorem bestOf_none_eq_none (l : List AppliedTier) :
    bestOf none l = none ↔ l = [] := by
  cases l with
  | nil => simp [bestOf]
  | cons v vs =>
    constructor
    · intro h
      obtain ⟨b, hb⟩ := bestOf_some_isSome vs v
      have h2 : bestOf (some v) vs = none := h
      rw [hb] at h2
      cases h2
    · intro h
      cases h

/-- The loop of `pickBestTier` computes the accumulator discipline over
the qualifying tiers. -/
theorem pickBestTier_eq_bestOf (tiers : List ConfigTier) (q : Int) :
    pickBestTier tiers q = bestOf none (qualTiers tiers q) := by
  unfold pickBestTier
  by_cases h : tiers.isEmpty
  · have hnil : tiers = [] := List.isEmpty_iff.mp h
    subst hnil
    simp [qualTiers, bestOf]
  · rw [if_neg h]
    exact foldl_pickStep_eq_bestOf q tiers none

/-- A tier returned by `pickBestTier` is valid, qualifies, dominates every
qualifying threshold, and is the first qualifying tier attaining the
winning threshold. -/
theorem pickBestTier_some_spec (tiers : List ConfigTier) (q : Int) (b : AppliedTier)
    (h : pickBestTier tiers q = some b) :
    (0 < b.minEligibleQty ∧ 0 < b.discountCentsEach ∧ b.minEligibleQty ≤ q)
    ∧ (∀ t ∈ qualTiers tiers q, t.minEligibleQty ≤ b.minEligibleQty)
    ∧ (qualTiers tiers q).find? (fun t => t.minEligibleQty == b.minEligibleQty) = some b := by
  rw [pickBestTier_eq_bestOf] at h
  obtain ⟨hmem, hall, hfind⟩ := bestOf_none_spec _ _ h
  have hqual : tierQualifies q b = true := (List.mem_filter.mp hmem).2
  unfold tierQualifies at hqual
  simp only [Bool.and_eq_true, decide_eq_true_eq] at hqual
  exact ⟨⟨hqual.1.1, hqual.1.2, hqual.2⟩, hall, hfind⟩

/-- With no qualifying tier, `pickBestTier` returns nothing. -/
theorem pickBestTier_eq_none (tiers : List ConfigTier) (q : Int)
    (h : qualTiers tiers q = []) : pickBestTier tiers q = none := by
  rw [pickBestTier_eq_bestOf, h]
  rfl

/-! Branch analysis of `computeVolumeAdjustedMerchCents`. -/

/-- The merchandise total the engine accumulates over its normalized items
is the raw undiscounted total over the first `hardItemCap` items. -/
theorem merchSum_normItems (items : List VolumeItem) (snap : Option EligibilitySnapshot)
    (cap : Nat) : merchSum (normItems items snap cap) = rawMerchTotal items cap := by
  unfold merchSum normItems rawMerchTotal
  rw [List.map_map]
  rfl

/-- Every run of the engine either applies no tier and reports the raw
undiscounted total with zero discount, or applies the tier `pickBestTier`
chose for the accumulated eligible quantity and reports the corresponding
adjusted and discount sums. -/
theorem engine_cases (items : List VolumeItem) (config : Option VolumeConfig)
    (snap : Option EligibilitySnapshot) (cap : Nat) :
    ((computeVolumeAdjustedMerchCents items config snap cap).appliedTier = none
      ∧ (computeVolumeAdjustedMerchCents items config snap cap).volumeAdjustedMerchCents
          = rawMerchTotal items cap
      ∧ (computeVolumeAdjustedMerchCents items config snap cap).discountCentsTotal = 0)
    ∨ (∃ ts b, tiersOf config = some ts
        ∧ pickBestTier ts (eligQtySum (normItems items snap cap)) = some b
        ∧ computeVolumeAdjustedMerchCents items config snap cap
          = ⟨true, adjustedSum (normItems items snap cap) b.discountCentsEach,
              eligQtySum (normItems items snap cap), some b,
              discountSum (normItems items snap cap) b.discountCentsEach,
              cappedWarnings items cap⟩) := by
  unfold computeVolumeAdjustedMerchCents
  split
  next h0 =>
    have hnil : items = [] := List.isEmpty_iff.mp h0
    subst hnil
    left
    simp [rawMerchTotal]
  next h0 =>
    split
    next => left; simp
    next ts heq =>
      split
      next => left; simp
      next hts =>
        split
        next => left; simp [merchSum_normItems]
        next helig =>
          split
          next => left; simp [merchSum_normItems]
          next b hpick => right; exact ⟨ts, b, heq, hpick, rfl⟩

/-- Claim C2: whenever the engine applies a tier, the tier is valid
(positive threshold and discount), its threshold is within the reported
eligible quantity, it dominates every qualifying threshold, and it is the
first qualifying tier attaining the winning threshold (table order breaks
ties); and when no valid tier qualifies, no tier is applied and the basis
is the undiscounted total. -/
theorem claim2_applied_tier_is_best_valid :
    ∀ (items : List VolumeItem) (config : Option VolumeConfig)
      (snap : Option EligibilitySnapshot) (cap : Nat),
      (∀ b, (computeVolumeAdjustedMerchCents items config snap cap).appliedTier = some b →
        0 < b.minEligibleQty ∧ 0 < b.discountCentsEach
        ∧ b.minEligibleQty ≤ (computeVolumeAdjustedMerchCents items config snap cap).eligibleQty
        ∧ (∀ t ∈ qualTiers ((tiersOf config).getD [])
              (computeVolumeAdjustedMerchCents items config snap cap).eligibleQty,
            t.minEligibleQty ≤ b.minEligibleQty)
        ∧ (qualTiers ((tiersOf config).getD [])
              (computeVolumeAdjustedMerchCents items config snap cap).eligibleQty).find?
            (fun t => t.minEligibleQty == b.minEligibleQty) = some b)
      ∧ (qualTiers ((tiersOf config).getD [])
            (computeVolumeAdjustedMerchCents items config snap cap).eligibleQty = [] →
          (computeVolumeAdjustedMerchCents items config snap cap).appliedTier = none
          ∧ (computeVolumeAdjustedMerchCents items config snap cap).volumeAdjustedMerchCents
            = rawMerchTotal items cap) := by
  intro items config snap cap
  rcases engine_cases items config snap cap with ⟨hnone, hraw, _⟩ | ⟨ts, b0, hts, hpick, hr⟩
  · constructor
    · intro b hb
      rw [hnone] at hb
      cases hb
    · intro _
      exact ⟨hnone, hraw⟩
  · constructor
    · intro b hb
      rw [hr] at hb
      have hbb : b0 = b := by
        simpa using hb
      subst hbb
      obtain ⟨⟨hm, hd, hle⟩, hdom, hfind⟩ :=
        pickBestTier_some_spec ts (eligQtySum (normItems items snap cap)) b0 hpick
      rw [hr, hts]
      exact ⟨hm, hd, hle, hdom, hfind⟩
    · intro hqual
      rw [hr, hts] at hqual
      have : pickBestTier ts (eligQtySum (normItems items snap cap)) = none :=
        pickBestTier_eq_none _ _ hqual
      rw [hpick] at this
      cases this

/-- Witness for claim C2's hypotheses: on the scenario cart the engine
applies the tier `{3, 200}` at eligible quantity 3 (first part), and on
the same cart with quantity 1 no valid tier qualifies, so the basis is the
raw total 3000 (second part). -/
theorem claim2_witness :
    ((computeVolumeAdjustedMerchCents scenarioVolumeItems (some scenarioConfig)
        (some scenarioSnapshot) 500).appliedTier = some ⟨3, 200⟩
      ∧ (3 : Int) ≤ (computeVolumeAdjustedMerchCents scenarioVolumeItems (some scenarioConfig)
        (some scenarioSnapshot) 500).eligibleQty)
    ∧ ((computeVolumeAdjustedMerchCents [⟨some 1000, some 1, some ("111"), none, none⟩]
        (some scenarioConfig) (some scenarioSnapshot) 500).appliedTier = none
      ∧ (computeVolumeAdjustedMerchCents [⟨some 1000, some 1, some ("111"), none, none⟩]
        (some scenarioConfig) (some scenarioSnapshot) 500).volumeAdjustedMerchCents
        = rawMerchTotal [⟨some 1000, some 1, some ("111"), none, none⟩] 500) := by
  constructor
  · exact ⟨by decide,
      ((claim2_applied_tier_is_best_valid scenarioVolumeItems (some scenarioConfig)
        (some scenarioSnapshot) 500).1 ⟨3, 200⟩ (by decide)).2.2.1⟩
  · exact (claim2_applied_tier_is_best_valid [⟨some 1000, some 1, some ("111"), none, none⟩]
      (some scenarioConfig) (some scenarioSnapshot) 500).2 (by decide)

/-- Claim C3: when a tier is applied, every eligible item is priced at
`max 0 (unit - discount)` per unit (never negative), non-eligible items
keep their full unit price, the adjusted basis and the total discount are
the corresponding sums over all items; on the scenario cart (1000 and
2000 cents, quantities 3 and 1, the 1000-cent product eligible, tier
`{3, 200}`) the eligible quantity is 3 and the basis is 4400. -/
theorem claim3_tier_application_clamps_and_sums :
    (∀ (items : List VolumeItem) (config : Option VolumeConfig)
        (snap : Option EligibilitySnapshot) (cap : Nat) (b : AppliedTier),
      (computeVolumeAdjustedMerchCents items config snap cap).appliedTier = some b →
        (computeVolumeAdjustedMerchCents items config snap cap).volumeAdjustedMerchCents
          = ((normItems items snap cap).map (fun it =>
              (if it.isEligible then max 0 (it.unitCents - b.discountCentsEach)
               else it.unitCents) * it.qty)).sum
        ∧ (computeVolumeAdjustedMerchCents items config snap cap).discountCentsTotal
          = ((normItems items snap cap).map (fun it =>
              if it.isEligible then
                (it.unitCents - max 0 (it.unitCents - b.discountCentsEach)) * it.qty
              else 0)).sum
        ∧ ∀ it ∈ normItems items snap cap,
            0 ≤ max 0 (it.unitCents - b.discountCentsEach))
    ∧ ((computeVolumeAdjustedMerchCents scenarioVolumeItems (some scenarioConfig)
          (some scenarioSnapshot) 500).eligibleQty = 3
      ∧ (computeVolumeAdjustedMerchCents scenarioVolumeItems (some scenarioConfig)
          (some scenarioSnapshot) 500).volumeAdjustedMerchCents = 4400) := by
  constructor
  · intro items config snap cap b hb
    rcases engine_cases items config snap cap with ⟨hnone, _, _⟩ | ⟨ts, b0, hts, hpick, hr⟩
    · rw [hnone] at hb
      cases hb
    · rw [hr] at hb
      have hbb : b0 = b := by simpa using hb
      subst hbb
      rw [hr]
      refine ⟨?_, rfl, ?_⟩
      · show adjustedSum _ _ = _
        have hpt : ∀ it : NormItem,
            (if it.isEligible then max 0 (it.unitCents - b0.discountCentsEach)
             else it.unitCents) * it.qty
            = (if it.isEligible then max 0 (it.unitCents - b0.discountCentsEach) * it.qty
               else it.unitCents * it.qty) := by
          intro it
          by_cases h : it.isEligible <;> simp [h]
        unfold adjustedSum
        simp only [hpt]
      · intro it _
        exact le_max_left 0 _
  · exact ⟨by decide, by decide⟩

/-- Witness for claim C3's hypothesis: the engine applies tier `{3, 200}`
on the scenario cart, and the basis equals the clamped per-item sum. -/
theorem claim3_witness :
    (computeVolumeAdjustedMerchCents scenarioVolumeItems (some scenarioConfig)
      (some scenarioSnapshot) 500).appliedTier = some ⟨3, 200⟩
    ∧ (computeVolumeAdjustedMerchCents scenarioVolumeItems (some scenarioConfig)
        (some scenarioSnapshot) 500).volumeAdjustedMerchCents
      = ((normItems scenarioVolumeItems (some scenarioSnapshot) 500).map (fun it =>
          (if it.isEligible then
            max 0 (it.unitCents - (⟨3, 200⟩ : AppliedTier).discountCentsEach)
           else it.unitCents) * it.qty)).sum :=
  ⟨by decide,
    ((claim3_tier_application_clamps_and_sums.1 scenarioVolumeItems (some scenarioConfig)
      (some scenarioSnapshot) 500 ⟨3, 200⟩ (by decide)).1)⟩

/-! Algebraic facts about the engine's sums, for the conservation claim. -/

/-- Pointwise addition of two mapped sums. -/
theorem list_sum_map_add (l : List NormItem) (f g : NormItem → Int) :
    (l.map f).sum + (l.map g).sum = (l.map (fun x => f x + g x)).sum := by
  induction l with
  | nil => simp
  | cons x xs ih =>
    simp only [List.map_cons, List.sum_cons]
    rw [← ih]
    ring

/-- Per item, discounted price plus granted discount is the original
price, so the adjusted basis and the total discount sum back to the
engine's merchandise total. -/
theorem adjusted_add_discount (ns : List NormItem) (d : Int) :
    adjustedSum ns d + discountSum ns d = merchSum ns := by
  unfold adjustedSum discountSum merchSum
  rw [list_sum_map_add]
  have hpt : ∀ it : NormItem,
      (if it.isEligible then max 0 (it.unitCents - d) * it.qty
       else it.unitCents * it.qty)
      + (if it.isEligible then (it.unitCents - max 0 (it.unitCents - d)) * it.qty
         else 0)
      = it.unitCents * it.qty := by
    intro it
    by_cases h : it.isEligible
    · simp [h]
      ring
    · simp [h]
  simp only [hpt]

/-- The engine's clamped quantities are non-negative. -/
theorem clampInt_nonneg (n : Option Int) : 0 ≤ clampInt n 0 1000000 := by
  unfold clampInt
  exact le_min (le_max_right _ _) (by norm_num)

/-- With a positive per-unit discount and non-negative unit prices and
quantities, the granted discount is non-negative. -/
theorem discountSum_nonneg (ns : List NormItem) (d : Int) (hd : 0 ≤ d)
    (hu : ∀ it ∈ ns, 0 ≤ it.unitCents) (hq : ∀ it ∈ ns, 0 ≤ it.qty) :
    0 ≤ discountSum ns d := by
  unfold discountSum
  apply List.sum_nonneg
  intro x hx
  obtain ⟨it, hit, rfl⟩ := List.mem_map.mp hx
  by_cases h : it.isEligible
  · simp only [h, if_pos]
    apply mul_nonneg
    · have h1 : max 0 (it.unitCents - d) ≤ it.unitCents :=
        max_le (hu it hit) (sub_le_self _ hd)
      omega
    · exact hq it hit
  · simp [h]

/-- Claim C10: the conservation identity — adjusted basis plus total
discount equals the raw undiscounted total over the first `hardItemCap`
items — holds for every input; and with non-negative unit prices the
discount is non-negative, so the adjusted basis never exceeds the raw
total. -/
theorem claim10_conservation :
    ∀ (items : List VolumeItem) (config : Option VolumeConfig)
      (snap : Option EligibilitySnapshot) (cap : Nat),
      (computeVolumeAdjustedMerchCents items config snap cap).volumeAdjustedMerchCents
        + (computeVolumeAdjustedMerchCents items config snap cap).discountCentsTotal
        = rawMerchTotal items cap
      ∧ ((∀ it ∈ items, 0 ≤ toInt it.price 0) →
          0 ≤ (computeVolumeAdjustedMerchCents items config snap cap).discountCentsTotal
          ∧ (computeVolumeAdjustedMerchCents items config snap cap).volumeAdjustedMerchCents
            ≤ rawMerchTotal items cap) := by
  intro items config snap cap
  rcases engine_cases items config snap cap with ⟨_, hraw, hdisc⟩ | ⟨ts, b, hts, hpick, hr⟩
  · rw [hraw, hdisc]
    exact ⟨by ring, fun _ => ⟨le_refl 0, le_of_eq rfl⟩⟩
  · have hd : 0 < b.discountCentsEach := (pickBestTier_some_spec ts _ b hpick).1.2.1
    rw [hr]
    have hcons : adjustedSum (normItems items snap cap) b.discountCentsEach
        + discountSum (normItems items snap cap) b.discountCentsEach
        = rawMerchTotal items cap := by
      rw [adjusted_add_discount, merchSum_normItems]
    constructor
    · exact hcons
    · intro hpos
      have hq : ∀ it ∈ normItems items snap cap, 0 ≤ it.qty := by
        intro it hit
        obtain ⟨item, hmem, rfl⟩ := List.mem_map.mp hit
        exact clampInt_nonneg _
      have hu : ∀ it ∈ normItems items snap cap, 0 ≤ it.unitCents := by
        intro it hit
        obtain ⟨item, hmem, rfl⟩ := List.mem_map.mp hit
        exact hpos item (List.take_subset _ _ hmem)
      have h0 : 0 ≤ discountSum (normItems items snap cap) b.discountCentsEach :=
        discountSum_nonneg _ _ (le_of_lt hd) hu hq
      exact ⟨h0, by linarith⟩

/-- Witness for claim C10's hypothesis: the scenario cart has non-negative
prices; conservation gives 4400 + 600 = 5000 and the adjusted basis stays
below the raw total. -/
theorem claim10_witness :
    (computeVolumeAdjustedMerchCents scenarioVolumeItems (some scenarioConfig)
      (some scenarioSnapshot) 500).volumeAdjustedMerchCents
      + (computeVolumeAdjustedMerchCents scenarioVolumeItems (some scenarioConfig)
        (some scenarioSnapshot) 500).discountCentsTotal
      = rawMerchTotal scenarioVolumeItems 500
    ∧ 0 ≤ (computeVolumeAdjustedMerchCents scenarioVolumeItems (some scenarioConfig)
        (some scenarioSnapshot) 500).discountCentsTotal
    ∧ (computeVolumeAdjustedMerchCents scenarioVolumeItems (some scenarioConfig)
        (some scenarioSnapshot) 500).volumeAdjustedMerchCents
      ≤ rawMerchTotal scenarioVolumeItems 500 :=
  ⟨(claim10_conservation scenarioVolumeItems (some scenarioConfig)
      (some scenarioSnapshot) 500).1,
   (claim10_conservation scenarioVolumeItems (some scenarioConfig)
      (some scenarioSnapshot) 500).2 (by decide)⟩

/-! The empty-eligibility behavior of the engine. -/

/-- With a non-empty cart and an empty eligible set, the engine returns
the raw total either through its absent-or-empty-tier-table branch (no
eligibility warning) or, when a non-empty tier table is present, through
its empty-eligibility branch (warning appended). -/
theorem engine_elig_empty_cases (items : List VolumeItem) (config : Option VolumeConfig)
    (snap : Option EligibilitySnapshot) (cap : Nat)
    (hne : items ≠ []) (helig : eligSetOf snap = []) :
    ((tiersOf config = none ∨ tiersOf config = some [])
      ∧ computeVolumeAdjustedMerchCents items config snap cap
        = ⟨true, rawMerchTotal items cap, 0, none, 0, cappedWarnings items cap⟩)
    ∨ (∃ ts, tiersOf config = some ts ∧ ts ≠ []
        ∧ computeVolumeAdjustedMerchCents items config snap cap
          = ⟨true, rawMerchTotal items cap, 0, none, 0,
              cappedWarnings items cap ++ ["eligibility_missing_or_empty"]⟩) := by
  unfold computeVolumeAdjustedMerchCents
  split
  next h0 => exact absurd (List.isEmpty_iff.mp h0) hne
  next h0 =>
    split
    next heq => exact Or.inl ⟨Or.inl heq, rfl⟩
    next ts heq =>
      split
      next hts =>
        exact Or.inl ⟨Or.inr (by rw [heq, List.isEmpty_iff.mp hts]), rfl⟩
      next hts =>
        split
        next =>
          refine Or.inr ⟨ts, heq, fun hnil => hts (by simp [hnil]), ?_⟩
          simp [merchSum_normItems]
        next helig2 =>
          exact absurd (by simp [helig]) helig2

/-- Counterexample to claim C9 as stated: a one-item cart with an empty
eligible set and an absent tier table yields an empty warnings list — the
`eligibility_missing_or_empty` code is not present, though the claim
asserts it appears regardless of the tier table. -/
theorem claim9_counterexample :
    ([⟨some 100, some 1, some ("9"), none, none⟩] : List VolumeItem) ≠ []
    ∧ eligSetOf (some ⟨some 1, some [], some []⟩) = []
    ∧ (computeVolumeAdjustedMerchCents [⟨some 100, some 1, some ("9"), none, none⟩]
        none (some ⟨some 1, some [], some []⟩) 500).warnings = []
    ∧ ¬ (("eligibility_missing_or_empty")
        ∈ (computeVolumeAdjustedMerchCents [⟨some 100, some 1, some ("9"), none, none⟩]
            none (some ⟨some 1, some [], some []⟩) 500).warnings) := by
  refine ⟨by decide, by decide, by decide, by decide⟩

/-- Claim C9 (amended): for a non-empty cart with an empty eligible set
the engine always returns the raw undiscounted total with no tier and no
discount; the `eligibility_missing_or_empty` warning is guaranteed only
when a valid, non-empty tier table is present (with the table absent,
malformed, or empty, the no-tier-table branch returns first and emits no
such warning). -/
theorem claim9_empty_eligibility_amended :
    ∀ (items : List VolumeItem) (config : Option VolumeConfig)
      (snap : Option EligibilitySnapshot) (cap : Nat),
      items ≠ [] → eligSetOf snap = [] →
        (computeVolumeAdjustedMerchCents items config snap cap).volumeAdjustedMerchCents
          = rawMerchTotal items cap
        ∧ (computeVolumeAdjustedMerchCents items config snap cap).appliedTier = none
        ∧ (computeVolumeAdjustedMerchCents items config snap cap).discountCentsTotal = 0
        ∧ (∀ ts, tiersOf config = some ts → ts ≠ [] →
            ("eligibility_missing_or_empty")
              ∈ (computeVolumeAdjustedMerchCents items config snap cap).warnings) := by
  intro items config snap cap hne helig
  rcases engine_elig_empty_cases items config snap cap hne helig with
    ⟨htc, hr⟩ | ⟨ts, hts, htsne, hr⟩
  · rw [hr]
    refine ⟨rfl, rfl, rfl, ?_⟩
    intro ts2 hts2 htsne2
    rcases htc with h | h
    · rw [h] at hts2
      cases hts2
    · rw [h] at hts2
      cases hts2
      exact absurd rfl htsne2
  · rw [hr]
    refine ⟨rfl, rfl, rfl, ?_⟩
    intro _ _ _
    simp

/-- Witness for claim C9's hypotheses: one-item cart, valid non-empty tier
table, empty eligible set — the raw total comes back untouched and the
warning is present. -/
theorem claim9_witness :
    (computeVolumeAdjustedMerchCents [⟨some 100, some 1, some ("9"), none, none⟩]
      (some scenarioConfig) (some ⟨some 1, some [], some []⟩) 500).volumeAdjustedMerchCents
      = rawMerchTotal [⟨some 100, some 1, some ("9"), none, none⟩] 500
    ∧ (computeVolumeAdjustedMerchCents [⟨some 100, some 1, some ("9"), none, none⟩]
        (some scenarioConfig) (some ⟨some 1, some [], some []⟩) 500).appliedTier = none
    ∧ ("eligibility_missing_or_empty")
      ∈ (computeVolumeAdjustedMerchCents [⟨some 100, some 1, some ("9"), none, none⟩]
          (some scenarioConfig) (some ⟨some 1, some [], some []⟩) 500).warnings := by
  have h := claim9_empty_eligibility_amended
    [⟨some 100, some 1, some ("9"), none, none⟩] (some scenarioConfig)
    (some ⟨some 1, some [], some []⟩) 500 (by decide) (by decide)
  exact ⟨h.1, h.2.1, h.2.2.2 [⟨some 3, some 200⟩] (by decide) (by decide)⟩

/-- Claim C5: `isDestinationManaged` is a total boolean function that
returns false when the country is absent from its region group, true on a
`selected: true` entry regardless of province, and, for a province-gated
entry, matches exactly membership of the normalized destination province
in the normalized list — with a missing province code failing closed. -/
theorem claim5_zone_gate_spec :
    ∀ (cfg : Option ManagedZoneConfig) (country province : Option String),
      (countryEntryFor cfg (normalizeCountryCode country) = none →
        isDestinationManaged cfg country province = false)
      ∧ (∀ e, countryEntryFor cfg (normalizeCountryCode country) = some e →
          e.selected = some true → isDestinationManaged cfg country province = true)
      ∧ (∀ e ps, countryEntryFor cfg (normalizeCountryCode country) = some e →
          e.selected ≠ some true → e.provinces = some ps →
          normalizeProvinceCode province ≠ "" →
          (isDestinationManaged cfg country province = true ↔
            normalizeProvinceCode province
              ∈ ps.map (fun p => normalizeProvinceCode (some p))))
      ∧ (∀ e, countryEntryFor cfg (normalizeCountryCode country) = some e →
          e.selected ≠ some true → normalizeProvinceCode province = "" →
          isDestinationManaged cfg country province = false) := by
  intro cfg country province
  refine ⟨?_, ?_, ?_, ?_⟩
  · intro h
    simp only [isDestinationManaged, h]
  · intro e h hsel
    simp only [isDestinationManaged, h, hsel]
    simp
  · intro e ps h hsel hprov hpc
    have hselb : (e.selected == some true) = false := by
      simpa using hsel
    have hpcb : (normalizeProvinceCode province == "") = false := by
      simpa using hpc
    simp only [isDestinationManaged, h, hselb, hprov, Bool.false_eq_true, if_false,
      Option.getD_some, hpcb]
    by_cases hemp : (ps.map (fun p => normalizeProvinceCode (some p))).isEmpty
    · rw [List.isEmpty_iff.mp hemp]
      simp
    · have : (ps.map (fun p => normalizeProvinceCode (some p))).isEmpty = false := by
        simpa using hemp
      simp [this]
  · intro e h hsel hpc
    have hselb : (e.selected == some true) = false := by
      simpa using hsel
    simp only [isDestinationManaged, h, hselb, Bool.false_eq_true, if_false, hpc]
    simp

/-- Witness for claim C5's hypotheses: under the US-gated-on-CA/NY config,
the US entry is province-gated and TX fails the membership test, while FR
is absent and unmanaged. -/
theorem claim5_witness :
    (isDestinationManaged (some usProvinceZoneConfig) (some ("US")) (some ("TX")) = true ↔
      normalizeProvinceCode (some ("TX"))
        ∈ ([("CA"), ("NY")]).map (fun p => normalizeProvinceCode (some p)))
    ∧ isDestinationManaged (some usProvinceZoneConfig) (some ("FR")) none = false := by
  constructor
  · exact (claim5_zone_gate_spec (some usProvinceZoneConfig) (some ("US")) (some ("TX"))).2.2.1
      ⟨none, some [("CA"), ("NY")]⟩ [("CA"), ("NY")] (by decide) (by decide) (by decide)
      (by decide)
  · exact (claim5_zone_gate_spec (some usProvinceZoneConfig) (some ("FR")) none).1 (by decide)
